import Mathlib

/-!
Verification of `bake-textures.py`, a Blender texture-baking script.

The script is a linear sequence of calls into the Blender (`bpy`) host API.
We embed it shallowly as a *trace semantics*: every host-API call the script
makes is recorded as a `HostOp`, each Python helper function becomes a Lean
function producing the list of host operations it performs, and the main
workflow becomes `mainTrace : Host → Option (List HostOp)`.

The `Host` structure collects exactly the values the script *reads back* from
the host during a run: the polygon counts returned by `getPolyCount` at its
three call sites, the number of material slots of the model copy (which drives
the loop in `purgeMaterials`), and the status values returned by the OBJ
import/export operators.  These reads are the only way host behaviour can
influence the script's control flow, so a `Host` value determines the whole
run.

`mainTrace` returns `none` exactly when the level-search loop in
`subSurfToTarget` diverges (which happens when the copy's polygon count is `0`
and the target's is positive); the loop itself is modelled by the fuel-indexed
`levelSearch`, and divergence is expressed as `levelSearch` returning `none`
for every amount of fuel.

Float literals of the script (`ratio = 0.01`, `cage_extrusion = 0.05`) are
configuration constants passed verbatim to the host, never computed with, so
they are modelled as the exact rationals `1/100` and `1/20`.

Objects are identified by the order of their creation in the scene (the
script addresses them via `bpy.context.editable_objects[-1]`): the imported
model is object `0` and its duplicate is object `1`.
-/

namespace BakeTextures

/-- One host-API call made by the script.  Each constructor corresponds to a
`bpy` operator or property assignment appearing in `bake-textures.py`, with
the arguments the script passes recorded as fields. -/
inductive HostOp where
  /-- `bpy.ops.object.select_all(action='SELECT')` -/
  | selectAllOp : HostOp
  /-- `bpy.ops.object.select_all(action='DESELECT')` -/
  | deselectAllOp : HostOp
  /-- `obj.select_set(state)` -/
  | selectSetOp (objId : Nat) (state : Bool) : HostOp
  /-- `bpy.context.view_layer.objects.active = obj` -/
  | makeActiveOp (objId : Nat) : HostOp
  /-- `bpy.ops.object.delete(use_global=False)` -/
  | deleteOp : HostOp
  /-- `bpy.ops.import_scene.obj(filepath=path)` -/
  | importOp (path : String) : HostOp
  /-- `bpy.ops.export_scene.obj(filepath=path, use_selection=b)` -/
  | exportOp (path : String) (useSelection : Bool) : HostOp
  /-- `image.filepath_raw = path` -/
  | setImageFilepathOp (path : String) : HostOp
  /-- `image.save()` -/
  | saveImageOp : HostOp
  /-- `bpy.ops.object.duplicate()` -/
  | duplicateOp : HostOp
  /-- `obj.modifiers.new(name, kind)` -/
  | newModifierOp (objId : Nat) (name kind : String) : HostOp
  /-- `dm.ratio = r` on the decimate modifier -/
  | setRatioOp (r : ℚ) : HostOp
  /-- `sm.use_creases = b` on the subdivision modifier -/
  | setUseCreasesOp (b : Bool) : HostOp
  /-- `sm.subdivision_type = ty` on the subdivision modifier -/
  | setSubdivisionTypeOp (ty : String) : HostOp
  /-- `sm.levels = levels` on the subdivision modifier -/
  | setLevelsOp (levels : Nat) : HostOp
  /-- `swm.target = target` on the shrink-wrap modifier -/
  | setShrinkTargetOp (targetId : Nat) : HostOp
  /-- `bpy.ops.object.modifier_apply(apply_as=applyAs, modifier=name)` -/
  | modifierApplyOp (objId : Nat) (applyAs name : String) : HostOp
  /-- `obj.active_material_index = i` -/
  | setActiveMaterialIndexOp (objId i : Nat) : HostOp
  /-- `bpy.ops.object.material_slot_remove({'object': obj})` -/
  | materialSlotRemoveOp (objId : Nat) : HostOp
  /-- `bpy.data.materials.new(name=name)` -/
  | newMaterialOp (name : String) : HostOp
  /-- `material.use_nodes = b` -/
  | setUseNodesOp (matName : String) (b : Bool) : HostOp
  /-- `bpy.data.images.new(name=name, width=width, height=height)` -/
  | newImageOp (name : String) (width height : Nat) : HostOp
  /-- `material.node_tree.nodes.new(kind)` -/
  | newNodeOp (matName kind : String) : HostOp
  /-- `texImageNode.image = image` -/
  | setNodeImageOp (imageName : String) : HostOp
  /-- `texImageNode.select = True` -/
  | selectNodeOp : HostOp
  /-- `node_tree.nodes.active = texImageNode`, where `node_tree` is the node
  tree of the material looked up as `bpy.data.materials[matName]` -/
  | setActiveNodeOp (matName : String) : HostOp
  /-- `material.node_tree.links.new(bsdf.inputs[input], node.outputs[output])`
  on the node tree of the material named `matName` -/
  | linkOp (matName input output : String) : HostOp
  /-- `obj.data.materials.append(material)` -/
  | appendMaterialOp (objId : Nat) (matName : String) : HostOp
  /-- `bpy.ops.uv.smart_project(stretch_to_bounds=b)` -/
  | smartProjectOp (stretchToBounds : Bool) : HostOp
  /-- `bpy.context.scene.render.engine = engine` -/
  | setRenderEngineOp (engine : String) : HostOp
  /-- `bpy.ops.object.bake(...)` with all keyword arguments the script passes -/
  | bakeOp (ty : String) (passFilter : List String) (width height margin : Nat)
      (useSelectedToActive : Bool) (cageExtrusion : ℚ) (saveMode : String) : HostOp
  deriving DecidableEq, Repr

/-- The values the script reads back from the host during one run.  All host
reads the script performs are collected here; everything else about the run is
determined by the script's text. -/
structure Host where
  /-- `getPolyCount(modelCopy)` at the decimation check (line 218), i.e. the
  copy's polygon count after material purging. -/
  copyPolyCount : Nat
  /-- `getPolyCount(target)` inside `subSurfToTarget` (line 80): the imported
  model's polygon count. -/
  originalPolyCount : Nat
  /-- `getPolyCount(obj)` inside `subSurfToTarget` (line 83): the copy's
  polygon count after decimation. -/
  decimatedPolyCount : Nat
  /-- `len(obj.material_slots)` for the copy inside `purgeMaterials`. -/
  materialSlotCount : Nat
  /-- The status value returned by `bpy.ops.import_scene.obj`. -/
  importStatus : String
  /-- The status value returned by `bpy.ops.export_scene.obj`. -/
  exportStatus : String
  deriving DecidableEq, Repr

/-- The imported model is the first object created in the (emptied) scene. -/
def importedId : Nat := 0

/-- The duplicate is the second object created in the scene. -/
def copyId : Nat := 1

/-- `selectObj(obj)` (lines 13-15): deselect all, then select `obj`. -/
def selectObjTrace (objId : Nat) : List HostOp :=
  [.deselectAllOp, .selectSetOp objId true]

/-- `makeActive(obj)` (lines 19-20). -/
def makeActiveTrace (objId : Nat) : List HostOp :=
  [.makeActiveOp objId]

/-- `selectAll()` (lines 24-25). -/
def selectAllTrace : List HostOp :=
  [.selectAllOp]

/-- `deleteSelected()` (lines 29-30). -/
def deleteSelectedTrace : List HostOp :=
  [.deleteOp]

/-- `importObj(file_loc)` (lines 34-37), operations performed. -/
def importObjTrace (fileLoc : String) : List HostOp :=
  [.importOp fileLoc]

/-- `importObj(file_loc)` (lines 34-37), returned value: the pair
`(obj, import_model_stat)` of the newly imported object and the status
returned by the import operator. -/
def importObjResult (h : Host) : Nat × String :=
  (importedId, h.importStatus)

/-- `exportObj(obj, export_loc)` (lines 41-44), operations performed. -/
def exportObjTrace (objId : Nat) (exportLoc : String) : List HostOp :=
  selectObjTrace objId ++ [.exportOp exportLoc true]

/-- `exportObj(obj, export_loc)` (lines 41-44), returned value:
`export_model_stat`. -/
def exportObjResult (h : Host) : String :=
  h.exportStatus

/-- `exportTexture(image, export_loc)` (lines 48-50). -/
def exportTextureTrace (exportLoc : String) : List HostOp :=
  [.setImageFilepathOp exportLoc, .saveImageOp]

/-- `duplicate(obj)` (lines 54-58): select the object, duplicate it; the
duplicate becomes the newest editable object. -/
def duplicateTrace (objId : Nat) : List HostOp :=
  selectObjTrace objId ++ [.duplicateOp]

/-- `decimate(obj, ratio)` (lines 68-73). -/
def decimateTrace (objId : Nat) (ratio : ℚ) : List HostOp :=
  [.newModifierOp objId "Decimate" "DECIMATE", .setRatioOp ratio]
    ++ selectObjTrace objId ++ makeActiveTrace objId
    ++ [.modifierApplyOp objId "DATA" "Decimate"]

/-- `startingPolyCount * ((4**(level-1)) * 3)` (lines 87 and 90 of
`subSurfToTarget`). -/
def estimatedPolyCount (startingPolyCount level : Nat) : Nat :=
  startingPolyCount * (4 ^ (level - 1) * 3)

/-- The while loop of `subSurfToTarget` (lines 86-90), indexed by fuel: from
the current `level`, keep incrementing while the estimated polygon count is
below `originalPolyCount`.  `none` means the given fuel was exhausted before
the loop exited; the actual Python loop terminates exactly when some amount of
fuel yields `some`. -/
def levelSearch (startingPolyCount originalPolyCount : Nat) :
    Nat → Nat → Option Nat
  | 0, _ => none
  | fuel + 1, level =>
    if estimatedPolyCount startingPolyCount level < originalPolyCount then
      levelSearch startingPolyCount originalPolyCount fuel (level + 1)
    else
      some level

/-- The level computed by `subSurfToTarget` (lines 86-90): the while loop run
from `level = 1`.  The fuel `originalPolyCount + 1` is enough whenever the
loop terminates at all (proved below), so `none` signals divergence. -/
def subsurfLevel (startingPolyCount originalPolyCount : Nat) : Option Nat :=
  levelSearch startingPolyCount originalPolyCount (originalPolyCount + 1) 1

/-- Modifier setup and application of `subSurfToTarget` (lines 93-99), for a
given subdivision level. -/
def subSurfOps (objId level : Nat) : List HostOp :=
  [.newModifierOp objId "Subsurf" "SUBSURF", .setUseCreasesOp true,
    .setSubdivisionTypeOp "SIMPLE", .setLevelsOp level]
    ++ selectObjTrace objId ++ makeActiveTrace objId
    ++ [.modifierApplyOp objId "DATA" "Subsurf"]

/-- `subSurfToTarget(obj, target)` (lines 77-99): compute the level with the
while loop, then add and apply the subdivision modifier.  `none` when the loop
diverges. -/
def subSurfToTargetTrace (objId startingPolyCount originalPolyCount : Nat) :
    Option (List HostOp) :=
  (subsurfLevel startingPolyCount originalPolyCount).map (subSurfOps objId)

/-- `shrinkWrap(obj, target)` (lines 103-108). -/
def shrinkWrapTrace (objId targetId : Nat) : List HostOp :=
  [.newModifierOp objId "ShrinkWrap" "SHRINKWRAP", .setShrinkTargetOp targetId]
    ++ selectObjTrace objId ++ makeActiveTrace objId
    ++ [.modifierApplyOp objId "DATA" "ShrinkWrap"]

/-- `purgeMaterials(obj)` (lines 112-115): set the active material index to 0,
then remove a material slot once per slot the object had. -/
def purgeMaterialsTrace (objId slotCount : Nat) : List HostOp :=
  .setActiveMaterialIndexOp objId 0
    :: List.replicate slotCount (.materialSlotRemoveOp objId)

/-- `createMaterial(myName)` (lines 119-122). -/
def createMaterialTrace (myName : String) : List HostOp :=
  [.newMaterialOp myName, .setUseNodesOp myName true]

/-- `createImage(myWidth, myHeight, myName)` (lines 126-128). -/
def createImageTrace (myWidth myHeight : Nat) (myName : String) : List HostOp :=
  [.newImageOp myName myWidth myHeight]

/-- `smartUV(obj)` (lines 132-135). -/
def smartUVTrace (objId : Nat) : List HostOp :=
  selectObjTrace objId ++ makeActiveTrace objId ++ [.smartProjectOp false]

/-- `setRenderEngine(engine)` (lines 139-140). -/
def setRenderEngineTrace (engine : String) : List HostOp :=
  [.setRenderEngineOp engine]

/-- `makeNewTexture(obj)` (lines 144-167): create the material
`"New Material"` and a blank 1024x1024 image, add a texture-image node to the
new material and give it the image, set the active node on the node tree of
the material looked up by the *name* `'Material'` in `bpy.data.materials`,
link the texture node to the new material's Principled BSDF Base Color input,
and append the new material to the object. -/
def makeNewTextureTrace (objId : Nat) : List HostOp :=
  createMaterialTrace "New Material"
    ++ createImageTrace 1024 1024 "Blank Image"
    ++ [.newNodeOp "New Material" "ShaderNodeTexImage",
        .setNodeImageOp "Blank Image",
        .selectNodeOp,
        .setActiveNodeOp "Material",
        .linkOp "New Material" "Base Color" "Color",
        .appendMaterialOp objId "New Material"]

/-- The bake pass filter (line 184), in source order. -/
def bakePassFilter : List String :=
  ["AO", "COLOR", "EMIT", "DIFFUSE", "GLOSSY", "TRANSMISSION", "SUBSURFACE"]

/-- `bake(obj, target)` (lines 171-190): switch to CYCLES, select everything,
make the bake target active, bake.  The `obj` parameter is unused by the
function body. -/
def bakeTrace (objId targetId : Nat) : List HostOp :=
  setRenderEngineTrace "CYCLES" ++ selectAllTrace ++ makeActiveTrace targetId
    ++ [.bakeOp "DIFFUSE" bakePassFilter 1024 1024 2 true (1/20) "INTERNAL"]

/-- The hard-coded input path (line 204). -/
def file_loc : String :=
  "C:\\Users\\Kevin\\Documents\\test_models\\3dmodel.obj"

/-- The hard-coded output path (line 246). -/
def export_loc : String :=
  "C:\\Users\\Kevin\\Documents\\test_models\\new3dmodel.obj"

/-- The decimation threshold (line 218). -/
def decimationThreshold : Nat := 100000

/-- The whole trace of the main workflow for a given optional detail-recovery
segment, in the order of lines 198-248. -/
def workflowOps (h : Host) (detail : List HostOp) : List HostOp :=
  selectAllTrace ++ deleteSelectedTrace
    ++ importObjTrace file_loc
    ++ duplicateTrace (importObjResult h).1
    ++ purgeMaterialsTrace copyId h.materialSlotCount
    ++ (if decimationThreshold < h.copyPolyCount
        then decimateTrace copyId (1/100) else [])
    ++ smartUVTrace copyId
    ++ detail
    ++ makeNewTextureTrace copyId
    ++ bakeTrace (importObjResult h).1 copyId
    ++ exportObjTrace copyId export_loc
    ++ exportTextureTrace (export_loc ++ ".jpg")

/-- MAIN WORKFLOW (lines 198-248): clear the scene, import, duplicate, purge
materials of the copy, decimate the copy if its polygon count exceeds 100000,
smart-UV-unwrap the copy, if it was decimated subdivide it towards the
original's polygon count and shrink-wrap it to the original, make and assign
the new texture, bake, export the copy and then the texture.  `none` exactly
when the level search in `subSurfToTarget` diverges. -/
def mainTrace (h : Host) : Option (List HostOp) :=
  let detailOps : Option (List HostOp) :=
    if decimationThreshold < h.copyPolyCount then
      (subSurfToTargetTrace copyId h.decimatedPolyCount h.originalPolyCount).map
        (fun ops => ops ++ shrinkWrapTrace copyId (importObjResult h).1)
    else
      some []
  detailOps.map (workflowOps h)

/-- A concrete host on which the imported model is small: the copy has 10
polygons after purging, so the decimation branch is not taken. -/
def smallHost : Host :=
  { copyPolyCount := 10
    originalPolyCount := 10
    decimatedPolyCount := 10
    materialSlotCount := 1
    importStatus := "FINISHED"
    exportStatus := "FINISHED" }

/-- The trace of the run on `smallHost`. -/
def smallTrace : List HostOp :=
  (mainTrace smallHost).getD []

/-- A concrete host on which the imported model is large: the copy has 200000
polygons after purging, so it is decimated (to 2000 polygons here) and the
detail-recovery branch runs. -/
def bigHost : Host :=
  { copyPolyCount := 200000
    originalPolyCount := 200000
    decimatedPolyCount := 2000
    materialSlotCount := 3
    importStatus := "FINISHED"
    exportStatus := "FINISHED" }

/-- The trace of the run on `bigHost`. -/
def bigTrace : List HostOp :=
  (mainTrace bigHost).getD []

/-- Boolean recogniser for the bake operation, used to count bake calls in a
trace. -/
def isBakeOp : HostOp → Bool
  | .bakeOp _ _ _ _ _ _ _ _ => true
  | _ => false

/-! ### Case analysis of the main workflow -/

theorem mainTrace_of_not_decimated (h : Host)
    (hc : ¬ decimationThreshold < h.copyPolyCount) :
    mainTrace h = some (workflowOps h []) := by
  simp [mainTrace, hc]

theorem mainTrace_of_decimated (h : Host)
    (hc : decimationThreshold < h.copyPolyCount) (L : Nat)
    (hL : subsurfLevel h.decimatedPolyCount h.originalPolyCount = some L) :
    mainTrace h =
      some (workflowOps h
        (subSurfOps copyId L ++ shrinkWrapTrace copyId importedId)) := by
  simp [mainTrace, hc, subSurfToTargetTrace, hL, importObjResult]

theorem mainTrace_cases (h : Host) (t : List HostOp)
    (ht : mainTrace h = some t) :
    (¬ decimationThreshold < h.copyPolyCount ∧ t = workflowOps h []) ∨
    (decimationThreshold < h.copyPolyCount ∧
      ∃ L, subsurfLevel h.decimatedPolyCount h.originalPolyCount = some L ∧
        t = workflowOps h
          (subSurfOps copyId L ++ shrinkWrapTrace copyId importedId)) := by
  by_cases hc : decimationThreshold < h.copyPolyCount
  · right
    refine ⟨hc, ?_⟩
    cases hL : subsurfLevel h.decimatedPolyCount h.originalPolyCount with
    | none =>
      rw [mainTrace] at ht
      simp [hc, subSurfToTargetTrace, hL] at ht
    | some L =>
      refine ⟨L, rfl, ?_⟩
      rw [mainTrace_of_decimated h hc L hL] at ht
      exact (Option.some_injective _ ht).symm
  · left
    refine ⟨hc, ?_⟩
    rw [mainTrace_of_not_decimated h hc] at ht
    exact (Option.some_injective _ ht).symm

/-! ### The level-search loop of subSurfToTarget -/

theorem estimatedPolyCount_eq (s l : Nat) :
    estimatedPolyCount s l = s * 3 * 4 ^ (l - 1) := by
  rw [estimatedPolyCount]; ring

theorem succ_le_three_mul_four_pow (k : Nat) : k + 1 ≤ 4 ^ k * 3 := by
  induction k with
  | zero => simp
  | succ k ih =>
    have h4 : 4 ^ (k + 1) * 3 = 4 * (4 ^ k * 3) := by ring
    omega

theorem le_estimatedPolyCount (s l : Nat) (hs : 1 ≤ s) (hl : 1 ≤ l) :
    l ≤ estimatedPolyCount s l := by
  have h1 : l - 1 + 1 ≤ 4 ^ (l - 1) * 3 := succ_le_three_mul_four_pow (l - 1)
  have h2 : 4 ^ (l - 1) * 3 ≤ s * (4 ^ (l - 1) * 3) :=
    Nat.le_mul_of_pos_left _ hs
  rw [estimatedPolyCount]
  omega

theorem levelSearch_sound (s o : Nat) :
    ∀ fuel level L, levelSearch s o fuel level = some L →
      level ≤ L ∧ o ≤ estimatedPolyCount s L ∧
        ∀ l, level ≤ l → l < L → estimatedPolyCount s l < o := by
  intro fuel
  induction fuel with
  | zero => intro level L hL; simp [levelSearch] at hL
  | succ fuel ih =>
    intro level L hL
    rw [levelSearch] at hL
    by_cases hlt : estimatedPolyCount s level < o
    · rw [if_pos hlt] at hL
      obtain ⟨h1, h2, h3⟩ := ih (level + 1) L hL
      refine ⟨by omega, h2, fun l hl1 hl2 => ?_⟩
      rcases Nat.eq_or_lt_of_le hl1 with rfl | hlt'
      · exact hlt
      · exact h3 l hlt' hl2
    · rw [if_neg hlt] at hL
      obtain rfl := Option.some_injective _ hL.symm
      exact ⟨Nat.le_refl _, by omega, fun l hl1 hl2 => by omega⟩

theorem levelSearch_isSome (s o : Nat) :
    ∀ fuel level k, k < fuel →
      ¬ estimatedPolyCount s (level + k) < o →
      ∃ L, levelSearch s o fuel level = some L := by
  intro fuel
  induction fuel with
  | zero => intro level k hk; omega
  | succ fuel ih =>
    intro level k hk hge
    rw [levelSearch]
    by_cases hlt : estimatedPolyCount s level < o
    · rw [if_pos hlt]
      have hk0 : k ≠ 0 := by
        rintro rfl
        exact hge (by simpa using hlt)
      have heq : level + 1 + (k - 1) = level + k := by omega
      exact ih (level + 1) (k - 1) (by omega) (by rwa [heq])
    · rw [if_neg hlt]
      exact ⟨level, rfl⟩

theorem subsurfLevel_isSome (s o : Nat) (hs : 1 ≤ s) :
    ∃ L, subsurfLevel s o = some L := by
  rw [subsurfLevel]
  refine levelSearch_isSome s o (o + 1) 1 o (by omega) ?_
  have := le_estimatedPolyCount s (1 + o) hs (by omega)
  omega

theorem levelSearch_zero_of_pos (o : Nat) (ho : 0 < o) :
    ∀ fuel level, levelSearch 0 o fuel level = none := by
  intro fuel
  induction fuel with
  | zero => intro level; rfl
  | succ fuel ih =>
    intro level
    rw [levelSearch, if_pos (by simpa [estimatedPolyCount] using ho)]
    exact ih (level + 1)

/-! ### Claim theorems -/

/-- C3: the subdivision and shrink-wrap detail-recovery modifiers are added to
the model copy if and only if the copy's polygon count after material purging
exceeded 100000 (i.e. the copy was decimated); otherwise neither modifier
appears anywhere in the run. -/
theorem C3_detail_recovery_iff_decimated (h : Host) (t : List HostOp)
    (ht : mainTrace h = some t) :
    (HostOp.newModifierOp copyId "Subsurf" "SUBSURF" ∈ t ↔
      100000 < h.copyPolyCount) ∧
    (HostOp.newModifierOp copyId "ShrinkWrap" "SHRINKWRAP" ∈ t ↔
      100000 < h.copyPolyCount) := by
  rcases mainTrace_cases h t ht with ⟨hc, rfl⟩ | ⟨hc, L, hL, rfl⟩ <;>
    rw [decimationThreshold] at hc <;>
    simp [workflowOps, selectAllTrace, deleteSelectedTrace, importObjTrace,
      duplicateTrace, selectObjTrace, purgeMaterialsTrace, decimateTrace,
      makeActiveTrace, smartUVTrace, makeNewTextureTrace, createMaterialTrace,
      createImageTrace, bakeTrace, setRenderEngineTrace, exportObjTrace,
      exportTextureTrace, subSurfOps, shrinkWrapTrace, importObjResult,
      decimationThreshold, List.mem_replicate, hc]

/-- C1: for every terminating run, the host-operation trace is, in this
order: scene clear, import from the input path, duplicate the imported model,
purge the duplicate's materials, optionally decimate the duplicate,
UV-unwrap the duplicate, optionally subdivide and shrink-wrap the duplicate,
create and assign the new texture image, bake from the original to the
duplicate, and finally export the duplicate mesh followed by the texture
image. -/
theorem C1_workflow_operation_order (h : Host) (t : List HostOp)
    (ht : mainTrace h = some t) :
    ∃ detail : List HostOp,
      ((¬ 100000 < h.copyPolyCount ∧ detail = []) ∨
        (100000 < h.copyPolyCount ∧
          ∃ L, subsurfLevel h.decimatedPolyCount h.originalPolyCount = some L ∧
            detail = subSurfOps copyId L ++ shrinkWrapTrace copyId importedId)) ∧
      t = selectAllTrace ++ deleteSelectedTrace
        ++ importObjTrace file_loc
        ++ duplicateTrace importedId
        ++ purgeMaterialsTrace copyId h.materialSlotCount
        ++ (if 100000 < h.copyPolyCount then decimateTrace copyId (1/100) else [])
        ++ smartUVTrace copyId
        ++ detail
        ++ makeNewTextureTrace copyId
        ++ bakeTrace importedId copyId
        ++ exportObjTrace copyId export_loc
        ++ exportTextureTrace (export_loc ++ ".jpg") := by
  rcases mainTrace_cases h t ht with ⟨hc, rfl⟩ | ⟨hc, L, hL, rfl⟩ <;>
    rw [decimationThreshold] at hc
  · exact ⟨[], Or.inl ⟨hc, rfl⟩,
      by simp [workflowOps, importObjResult, decimationThreshold, importedId]⟩
  · exact ⟨_, Or.inr ⟨hc, L, hL, rfl⟩,
      by simp [workflowOps, importObjResult, decimationThreshold, importedId]⟩

/-- C1 witness: the order statement instantiated on the concrete run
`bigHost`, whose duplicate gets decimated. -/
theorem C1_witness :
    ∃ detail : List HostOp,
      ((¬ 100000 < bigHost.copyPolyCount ∧ detail = []) ∨
        (100000 < bigHost.copyPolyCount ∧
          ∃ L, subsurfLevel bigHost.decimatedPolyCount bigHost.originalPolyCount
              = some L ∧
            detail = subSurfOps copyId L ++ shrinkWrapTrace copyId importedId)) ∧
      bigTrace = selectAllTrace ++ deleteSelectedTrace
        ++ importObjTrace file_loc
        ++ duplicateTrace importedId
        ++ purgeMaterialsTrace copyId bigHost.materialSlotCount
        ++ (if 100000 < bigHost.copyPolyCount
            then decimateTrace copyId (1/100) else [])
        ++ smartUVTrace copyId
        ++ detail
        ++ makeNewTextureTrace copyId
        ++ bakeTrace importedId copyId
        ++ exportObjTrace copyId export_loc
        ++ exportTextureTrace (export_loc ++ ".jpg") :=
  C1_workflow_operation_order bigHost bigTrace rfl

/-- C2 counterexample: on a run whose imported model has only 10 polygons the
duplicate is never decimated, although it is UV-unwrapped and baked; so not
every execution produces a decimated proxy. -/
theorem C2_counterexample :
    mainTrace smallHost = some smallTrace ∧
    HostOp.newModifierOp copyId "Decimate" "DECIMATE" ∉ smallTrace ∧
    HostOp.smartProjectOp false ∈ smallTrace :=
  ⟨rfl, by decide, by decide⟩

/-- C2 (amended): the duplicate has the decimate modifier (ratio 0.01)
applied to it before UV unwrapping if and only if its polygon count exceeds
100000; below that threshold no decimation happens. -/
theorem C2_decimation_iff_threshold (h : Host) (t : List HostOp)
    (ht : mainTrace h = some t) :
    (HostOp.newModifierOp copyId "Decimate" "DECIMATE" ∈ t ↔
      100000 < h.copyPolyCount) ∧
    (100000 < h.copyPolyCount →
      ∃ pre post,
        t = pre ++ (decimateTrace copyId (1/100) ++ smartUVTrace copyId)
          ++ post) := by
  rcases mainTrace_cases h t ht with ⟨hc, rfl⟩ | ⟨hc, L, hL, rfl⟩ <;>
    rw [decimationThreshold] at hc
  · refine ⟨?_, fun hcc => absurd hcc hc⟩
    simp [workflowOps, selectAllTrace, deleteSelectedTrace, importObjTrace,
      duplicateTrace, selectObjTrace, purgeMaterialsTrace, decimateTrace,
      makeActiveTrace, smartUVTrace, makeNewTextureTrace, createMaterialTrace,
      createImageTrace, bakeTrace, setRenderEngineTrace, exportObjTrace,
      exportTextureTrace, importObjResult, decimationThreshold,
      List.mem_replicate, hc]
  · refine ⟨?_, fun _ => ?_⟩
    · simp [workflowOps, selectAllTrace, deleteSelectedTrace, importObjTrace,
        duplicateTrace, selectObjTrace, purgeMaterialsTrace, decimateTrace,
        makeActiveTrace, smartUVTrace, makeNewTextureTrace, createMaterialTrace,
        createImageTrace, bakeTrace, setRenderEngineTrace, exportObjTrace,
        exportTextureTrace, subSurfOps, shrinkWrapTrace, importObjResult,
        decimationThreshold, List.mem_replicate, hc]
    · refine ⟨selectAllTrace ++ deleteSelectedTrace ++ importObjTrace file_loc
        ++ duplicateTrace importedId
        ++ purgeMaterialsTrace copyId h.materialSlotCount,
        (subSurfOps copyId L ++ shrinkWrapTrace copyId importedId)
          ++ makeNewTextureTrace copyId ++ bakeTrace importedId copyId
          ++ exportObjTrace copyId export_loc
          ++ exportTextureTrace (export_loc ++ ".jpg"), ?_⟩
      simp [workflowOps, importObjResult, decimationThreshold, importedId, hc,
        List.append_assoc]

/-- C2 witness: the amended statement instantiated on the concrete run
`bigHost`, whose duplicate does get decimated. -/
theorem C2_witness :
    (HostOp.newModifierOp copyId "Decimate" "DECIMATE" ∈ bigTrace ↔
      100000 < bigHost.copyPolyCount) ∧
    (100000 < bigHost.copyPolyCount →
      ∃ pre post,
        bigTrace = pre ++ (decimateTrace copyId (1/100) ++ smartUVTrace copyId)
          ++ post) :=
  C2_decimation_iff_threshold bigHost bigTrace rfl

/-- C3 witness: the detail-recovery iff instantiated on the concrete run
`bigHost`. -/
theorem C3_witness :
    (HostOp.newModifierOp copyId "Subsurf" "SUBSURF" ∈ bigTrace ↔
      100000 < bigHost.copyPolyCount) ∧
    (HostOp.newModifierOp copyId "ShrinkWrap" "SHRINKWRAP" ∈ bigTrace ↔
      100000 < bigHost.copyPolyCount) :=
  C3_detail_recovery_iff_decimated bigHost bigTrace rfl

/-- C4: the status values returned by the OBJ import and export operators are
captured (`importObjResult` returns the import status, `exportObjResult` the
export status) but the run is completely independent of them: changing both
statuses arbitrarily leaves the whole host-operation trace unchanged, so no
control flow, retry, recovery, or reporting depends on any returned status. -/
theorem C4_statuses_never_inspected (h : Host) (s₁ s₂ : String) :
    mainTrace { h with importStatus := s₁, exportStatus := s₂ } = mainTrace h ∧
    (importObjResult h).2 = h.importStatus ∧
    exportObjResult h = h.exportStatus :=
  ⟨rfl, rfl, rfl⟩

/-- C5: the input model is read from exactly one hard-coded path, the mesh is
exported to one hard-coded path, and the texture is saved to the export path
with ".jpg" appended; no other paths occur, on any run. -/
theorem C5_hardcoded_paths (h : Host) (t : List HostOp)
    (ht : mainTrace h = some t) :
    HostOp.importOp file_loc ∈ t ∧
    HostOp.exportOp export_loc true ∈ t ∧
    HostOp.setImageFilepathOp (export_loc ++ ".jpg") ∈ t ∧
    (∀ p, HostOp.importOp p ∈ t → p = file_loc) ∧
    (∀ p b, HostOp.exportOp p b ∈ t → p = export_loc ∧ b = true) ∧
    (∀ p, HostOp.setImageFilepathOp p ∈ t → p = export_loc ++ ".jpg") := by
  rcases mainTrace_cases h t ht with ⟨hc, rfl⟩ | ⟨hc, L, hL, rfl⟩ <;>
    rw [decimationThreshold] at hc <;>
    simp [workflowOps, selectAllTrace, deleteSelectedTrace, importObjTrace,
      duplicateTrace, selectObjTrace, purgeMaterialsTrace, decimateTrace,
      makeActiveTrace, smartUVTrace, makeNewTextureTrace, createMaterialTrace,
      createImageTrace, bakeTrace, setRenderEngineTrace, exportObjTrace,
      exportTextureTrace, subSurfOps, shrinkWrapTrace, importObjResult,
      decimationThreshold, List.mem_replicate, hc]

/-- C5 witness: the path statement instantiated on the concrete run
`smallHost`. -/
theorem C5_witness :
    HostOp.importOp file_loc ∈ smallTrace ∧
    HostOp.exportOp export_loc true ∈ smallTrace ∧
    HostOp.setImageFilepathOp (export_loc ++ ".jpg") ∈ smallTrace ∧
    (∀ p, HostOp.importOp p ∈ smallTrace → p = file_loc) ∧
    (∀ p b, HostOp.exportOp p b ∈ smallTrace → p = export_loc ∧ b = true) ∧
    (∀ p, HostOp.setImageFilepathOp p ∈ smallTrace →
      p = export_loc ++ ".jpg") :=
  C5_hardcoded_paths smallHost smallTrace rfl

/-- C6: the tunable parameters are the same literal constants on every run:
any decimate ratio set is 1/100 (= 0.01), decimation happens exactly above
the literal threshold of 100000 polygons, any image created is 1024 by 1024,
and any bake call uses resolution 1024 by 1024, margin 2 and cage extrusion
1/20 (= 0.05); none of these depends on the host state `h`. -/
theorem C6_literal_constants (h : Host) (t : List HostOp)
    (ht : mainTrace h = some t) :
    (∀ r : ℚ, HostOp.setRatioOp r ∈ t → r = 1/100) ∧
    (HostOp.setRatioOp (1/100) ∈ t ↔ 100000 < h.copyPolyCount) ∧
    (∀ n w hgt, HostOp.newImageOp n w hgt ∈ t → w = 1024 ∧ hgt = 1024) ∧
    (∀ ty pf w hgt m sel cage sv,
      HostOp.bakeOp ty pf w hgt m sel cage sv ∈ t →
        w = 1024 ∧ hgt = 1024 ∧ m = 2 ∧ cage = 1/20) := by
  rcases mainTrace_cases h t ht with ⟨hc, rfl⟩ | ⟨hc, L, hL, rfl⟩ <;>
    rw [decimationThreshold] at hc <;>
    simp [workflowOps, selectAllTrace, deleteSelectedTrace, importObjTrace,
      duplicateTrace, selectObjTrace, purgeMaterialsTrace, decimateTrace,
      makeActiveTrace, smartUVTrace, makeNewTextureTrace, createMaterialTrace,
      createImageTrace, bakeTrace, setRenderEngineTrace, exportObjTrace,
      exportTextureTrace, subSurfOps, shrinkWrapTrace, importObjResult,
      decimationThreshold, List.mem_replicate, hc] <;>
    tauto

/-- C6 witness: the literal-constant statement instantiated on the concrete
run `bigHost`, whose duplicate does get decimated. -/
theorem C6_witness :
    (∀ r : ℚ, HostOp.setRatioOp r ∈ bigTrace → r = 1/100) ∧
    (HostOp.setRatioOp (1/100) ∈ bigTrace ↔ 100000 < bigHost.copyPolyCount) ∧
    (∀ n w hgt, HostOp.newImageOp n w hgt ∈ bigTrace →
      w = 1024 ∧ hgt = 1024) ∧
    (∀ ty pf w hgt m sel cage sv,
      HostOp.bakeOp ty pf w hgt m sel cage sv ∈ bigTrace →
        w = 1024 ∧ hgt = 1024 ∧ m = 2 ∧ cage = 1/20) :=
  C6_literal_constants bigHost bigTrace rfl

/-- C7: the bake step is the contiguous segment that switches the render
engine to CYCLES, selects all objects, makes the model copy active, and
invokes the bake; every run contains exactly one bake call, and it is a
DIFFUSE bake with the pass filter AO, COLOR, EMIT, DIFFUSE, GLOSSY,
TRANSMISSION, SUBSURFACE and selected-to-active transfer enabled; the
1024x1024 blank image created earlier is assigned to the copy via the new
material. -/
theorem C7_bake_step (h : Host) (t : List HostOp)
    (ht : mainTrace h = some t) :
    bakeTrace importedId copyId =
      [HostOp.setRenderEngineOp "CYCLES", HostOp.selectAllOp,
        HostOp.makeActiveOp copyId,
        HostOp.bakeOp "DIFFUSE" bakePassFilter 1024 1024 2 true (1/20)
          "INTERNAL"] ∧
    (∃ pre post, t = pre ++ bakeTrace importedId copyId ++ post) ∧
    (∀ ty pf w hgt m sel cage sv,
      HostOp.bakeOp ty pf w hgt m sel cage sv ∈ t →
        ty = "DIFFUSE" ∧ pf = bakePassFilter ∧ sel = true) ∧
    t.countP isBakeOp = 1 ∧
    HostOp.newImageOp "Blank Image" 1024 1024 ∈ t ∧
    HostOp.appendMaterialOp copyId "New Material" ∈ t := by
  rcases mainTrace_cases h t ht with ⟨hc, rfl⟩ | ⟨hc, L, hL, rfl⟩ <;>
    rw [decimationThreshold] at hc
  · refine ⟨rfl, ⟨selectAllTrace ++ deleteSelectedTrace
      ++ importObjTrace file_loc ++ duplicateTrace importedId
      ++ purgeMaterialsTrace copyId h.materialSlotCount
      ++ smartUVTrace copyId ++ makeNewTextureTrace copyId,
      exportObjTrace copyId export_loc
        ++ exportTextureTrace (export_loc ++ ".jpg"), ?_⟩, ?_, ?_, ?_, ?_⟩ <;>
      simp [workflowOps, selectAllTrace, deleteSelectedTrace, importObjTrace,
        duplicateTrace, selectObjTrace, purgeMaterialsTrace, decimateTrace,
        makeActiveTrace, smartUVTrace, makeNewTextureTrace,
        createMaterialTrace, createImageTrace, bakeTrace, setRenderEngineTrace,
        exportObjTrace, exportTextureTrace, importObjResult,
        decimationThreshold, List.mem_replicate, hc, isBakeOp,
        List.countP_append, List.countP_cons, List.countP_replicate,
        List.append_assoc] <;>
      tauto
  · refine ⟨rfl, ⟨selectAllTrace ++ deleteSelectedTrace
      ++ importObjTrace file_loc ++ duplicateTrace importedId
      ++ purgeMaterialsTrace copyId h.materialSlotCount
      ++ decimateTrace copyId (1/100) ++ smartUVTrace copyId
      ++ (subSurfOps copyId L ++ shrinkWrapTrace copyId importedId)
      ++ makeNewTextureTrace copyId,
      exportObjTrace copyId export_loc
        ++ exportTextureTrace (export_loc ++ ".jpg"), ?_⟩, ?_, ?_, ?_, ?_⟩ <;>
      simp [workflowOps, selectAllTrace, deleteSelectedTrace, importObjTrace,
        duplicateTrace, selectObjTrace, purgeMaterialsTrace, decimateTrace,
        makeActiveTrace, smartUVTrace, makeNewTextureTrace,
        createMaterialTrace, createImageTrace, bakeTrace, setRenderEngineTrace,
        exportObjTrace, exportTextureTrace, subSurfOps, shrinkWrapTrace,
        importObjResult, decimationThreshold, List.mem_replicate, hc, isBakeOp,
        List.countP_append, List.countP_cons, List.countP_replicate,
        List.append_assoc] <;>
      tauto

/-- C7 witness: the bake-step statement instantiated on the concrete run
`smallHost`. -/
theorem C7_witness :
    bakeTrace importedId copyId =
      [HostOp.setRenderEngineOp "CYCLES", HostOp.selectAllOp,
        HostOp.makeActiveOp copyId,
        HostOp.bakeOp "DIFFUSE" bakePassFilter 1024 1024 2 true (1/20)
          "INTERNAL"] ∧
    (∃ pre post, smallTrace = pre ++ bakeTrace importedId copyId ++ post) ∧
    (∀ ty pf w hgt m sel cage sv,
      HostOp.bakeOp ty pf w hgt m sel cage sv ∈ smallTrace →
        ty = "DIFFUSE" ∧ pf = bakePassFilter ∧ sel = true) ∧
    smallTrace.countP isBakeOp = 1 ∧
    HostOp.newImageOp "Blank Image" 1024 1024 ∈ smallTrace ∧
    HostOp.appendMaterialOp copyId "New Material" ∈ smallTrace :=
  C7_bake_step smallHost smallTrace rfl

/-- C8: in `subSurfToTarget`, whenever the copy's polygon count is at least 1
the level-search while loop terminates (already within the fuel used by
`subsurfLevel`) and returns the least level >= 1 whose estimated polygon
count `startingPolyCount * 3 * 4 ^ (level - 1)` reaches the original's
polygon count; when the copy's polygon count is 0 and the target's is
positive, the loop never terminates, whatever fuel it is given. -/
theorem C8_subsurf_level_search (s o : Nat) :
    (1 ≤ s → ∃ L, subsurfLevel s o = some L ∧ 1 ≤ L ∧
      o ≤ s * 3 * 4 ^ (L - 1) ∧
      ∀ l, 1 ≤ l → l < L → s * 3 * 4 ^ (l - 1) < o) ∧
    (s = 0 → 0 < o → ∀ fuel level, levelSearch s o fuel level = none) := by
  constructor
  · intro hs
    obtain ⟨L, hL⟩ := subsurfLevel_isSome s o hs
    obtain ⟨h1, h2, h3⟩ := levelSearch_sound s o (o + 1) 1 L hL
    refine ⟨L, hL, h1, ?_, fun l hl1 hl2 => ?_⟩
    · rw [← estimatedPolyCount_eq]; exact h2
    · rw [← estimatedPolyCount_eq]; exact h3 l hl1 hl2
  · rintro rfl ho
    exact fun fuel level => levelSearch_zero_of_pos o ho fuel level

/-- C8 witness: the level search for a copy with 2 polygons targeting 25
polygons terminates and returns the least admissible level. -/
theorem C8_witness :
    ∃ L, subsurfLevel 2 25 = some L ∧ 1 ≤ L ∧
      25 ≤ 2 * 3 * 4 ^ (L - 1) ∧
      ∀ l, 1 ≤ l → l < L → 2 * 3 * 4 ^ (l - 1) < 25 :=
  (C8_subsurf_level_search 2 25).1 (by decide)

/-- C9: every run starts by selecting and then deleting all objects already
in the scene, and only after that imports the model, so no pre-existing scene
object survives a run. -/
theorem C9_scene_cleared_first (h : Host) (t : List HostOp)
    (ht : mainTrace h = some t) :
    ∃ rest, t = HostOp.selectAllOp :: HostOp.deleteOp :: rest ∧
      HostOp.importOp file_loc ∈ rest := by
  rcases mainTrace_cases h t ht with ⟨hc, rfl⟩ | ⟨hc, L, hL, rfl⟩ <;>
    exact ⟨_, rfl, by
      simp [importObjTrace, selectObjTrace, duplicateTrace, importObjResult]⟩

/-- C9 witness: the scene-clearing statement instantiated on the concrete run
`smallHost`. -/
theorem C9_witness :
    ∃ rest, smallTrace = HostOp.selectAllOp :: HostOp.deleteOp :: rest ∧
      HostOp.importOp file_loc ∈ rest :=
  C9_scene_cleared_first smallHost smallTrace rfl

/-- C10: `makeNewTexture` creates a material named "New Material", links its
texture-image node to the Base Color input of that material's Principled
BSDF, and appends that material to the object, but the active node is set on
the node tree obtained by looking up the name "Material" in the global
material data, which is not the material it created. -/
theorem C10_active_node_on_looked_up_material (objId : Nat) :
    HostOp.newMaterialOp "New Material" ∈ makeNewTextureTrace objId ∧
    HostOp.linkOp "New Material" "Base Color" "Color"
      ∈ makeNewTextureTrace objId ∧
    HostOp.appendMaterialOp objId "New Material" ∈ makeNewTextureTrace objId ∧
    HostOp.setActiveNodeOp "Material" ∈ makeNewTextureTrace objId ∧
    (∀ m, HostOp.setActiveNodeOp m ∈ makeNewTextureTrace objId →
      m = "Material") ∧
    "Material" ≠ "New Material" := by
  simp [makeNewTextureTrace, createMaterialTrace, createImageTrace]

end BakeTextures
